import Mathlib

/-
  Verification development for the WhatsApp <-> Telegram bridge.

  Shallow embedding of the delivery / resilience core:
    - truncateText                 (utilities)
    - dedupe                       (index.js deduplicator)
    - the sendMessage retry loop   (TelegramManager.sendMessage)
    - the MessageQueue drain loop  (MessageQueue.process)
    - tgSend timing                (index.js rate limited send wrapper)
    - WhatsAppManager lifecycle    (reconnect state machine, health monitor)
    - the Telegram reply handler   (setupReplyHandler + sendReply)

  Machine integers are modelled as Nat (all quantities involved are
  non-negative millisecond timestamps, counters, or lengths); JS string
  values are modelled as Lean String or List Char; a fallible JS call is
  modelled as an `Except String` value.
-/

/-! ### Configuration constants (the CONFIG object) -/

def MAX_RETRIES : Nat := 3

def RECONNECT_DELAY : Nat := 5000

def MAX_RECONNECT_DELAY : Nat := 300000

def HEALTH_CHECK_INTERVAL : Nat := 60000

def MAX_MESSAGE_LENGTH : Nat := 4096

def RATE_LIMIT_DELAY : Nat := 1000

/-- TTL default of the index.js deduplicator. -/
def DEDUPE_TTL : Nat := 10000

/-! ### truncateText

JS source:
  function truncateText(text, maxLength = CONFIG.MAX_MESSAGE_LENGTH) {
    if (text.length <= maxLength) return text;
    return text.substring(0, maxLength - 3) + '...';
  }
Text is modelled as `List Char`. -/

def truncateText (text : List Char) (maxLength : Nat) : List Char :=
  if text.length ≤ maxLength then text
  else text.take (maxLength - 3) ++ ['.', '.', '.']

/-! ### dedupe (index.js)

JS source:
  const seen = new Set();
  function dedupe(key, ttl = 10000) {
    if (seen.has(key)) return true;
    seen.add(key);
    setTimeout(() => seen.delete(key), ttl);
    return false;
  }
The `seen` set together with its pending deletion timers is modelled as a
list of (key, expiry-time) pairs; a `setTimeout` deletion that is due
(current time ≥ expiry) has fired before the next `dedupe` call runs, which
`purge` accounts for. -/

def purge (now : Nat) (s : List (String × Nat)) : List (String × Nat) :=
  s.filter (fun ke => now < ke.2)

def dedupe (key : String) (ttl : Nat) (now : Nat) (s : List (String × Nat)) :
    Bool × List (String × Nat) :=
  let s1 := purge now s
  if s1.any (fun ke => ke.1 == key) then (true, s1)
  else (false, (key, now + ttl) :: s1)

/-! ### The sendMessage retry loop (TelegramManager.sendMessage)

JS source (the closure handed to messageQueue.add):
  let attempt = 0;
  while (attempt < CONFIG.MAX_RETRIES) {
    try { ... await this.bot.sendMessage(...); return result; }
    catch (error) {
      attempt++;
      if (attempt < CONFIG.MAX_RETRIES) { await sleep(1000 * attempt); }
      else { console.error(...); return null; }
    }
  }
The fallible Telegram API call is modelled as `act : Nat → Except String α`
giving the result of the attempt with that index.  `sendAttemptsGo` mirrors
the while loop with `fuel` bounding the remaining loop iterations
(`MAX_RETRIES - attempt`, enough for every iteration the guard admits); it
returns the number of times the API call was invoked together with the
value the closure settles with (`none` models `return null`). -/

def sendAttemptsGo (act : Nat → Except String α) : Nat → Nat → Nat × Option α
  | _, 0 => (0, none)
  | attempt, fuel + 1 =>
    if attempt < MAX_RETRIES then
      match act attempt with
      | Except.ok r => (1, some r)
      | Except.error _ =>
        if attempt + 1 < MAX_RETRIES then
          let p := sendAttemptsGo act (attempt + 1) fuel
          (p.1 + 1, p.2)
        else (1, none)
    else (0, none)

def sendAttempts (act : Nat → Except String α) (attempt : Nat) : Nat × Option α :=
  sendAttemptsGo act attempt (MAX_RETRIES - attempt)

/-! ### The MessageQueue drain (MessageQueue.process, sequential view)

Once `process` holds the `processing` flag it shifts items one by one and
settles each promise:
  const { fn, resolve, reject } = this.queue.shift();
  try { const result = await fn(); resolve(result); }
  catch (error) { reject(error); }
The settled result of each queued `fn` is modelled as an `Except String α`;
`processDrain` maps it to the promise outcome.  A rejected head never stops
the loop: the remaining items are still drained. -/

inductive QOutcome (α : Type) where
  | resolved (a : α)
  | rejected (e : String)
  deriving DecidableEq, Repr

def processDrain : List (Except String α) → List (QOutcome α)
  | [] => []
  | Except.ok a :: rest => QOutcome.resolved a :: processDrain rest
  | Except.error e :: rest => QOutcome.rejected e :: processDrain rest

/-! ### MessageQueue as a transition system (interleaved view)

For the ordering / single-flight claims the queue is modelled as a labelled
transition system over the states of `MessageQueue` (its `queue` array and
`processing` flag) together with the point of suspension of the `process`
loop.  The three suspension-free segments of the JS code become the three
transition labels:

  * `enqueue i` — `add` pushes the item and synchronously calls `process`;
    if `processing` was false the entry of `process` sets it, shifts the
    head of the queue and starts executing it (the `await fn()` suspends).
  * `finish`    — the awaited `fn()` settles; the promise is settled; if
    the queue is non-empty the loop suspends in `await sleep(delayMs)`,
    otherwise it clears `processing` and returns.
  * `wake`      — the sleep timer fires; the loop shifts the next item and
    starts executing it.

Ghost fields `started` (items in execution-start order), `finished`
(number of completed executions) and `submitted` (items in submission
order) record the observable history.  Items are identified by `Nat`. -/

inductive QPhase where
  | idle
  | running
  | sleeping
  deriving DecidableEq, Repr

structure QState where
  queue : List Nat
  phase : QPhase
  current : Option Nat
  started : List Nat
  finished : Nat
  submitted : List Nat
  deriving DecidableEq, Repr

def qInit : QState :=
  { queue := [], phase := QPhase.idle, current := none,
    started := [], finished := 0, submitted := [] }

inductive QEvent where
  | enqueue (i : Nat)
  | finish
  | wake
  deriving DecidableEq, Repr

def qStep (s : QState) (e : QEvent) : Option QState :=
  match e with
  | QEvent.enqueue i =>
    let q := s.queue ++ [i]
    match s.phase with
    | QPhase.idle =>
      match q with
      | [] => none
      | h :: t =>
        some { queue := t, phase := QPhase.running, current := some h,
               started := s.started ++ [h], finished := s.finished,
               submitted := s.submitted ++ [i] }
    | _ => some { s with queue := q, submitted := s.submitted ++ [i] }
  | QEvent.finish =>
    match s.phase, s.current with
    | QPhase.running, some _ =>
      if s.queue.isEmpty then
        some { s with phase := QPhase.idle, current := none,
                      finished := s.finished + 1 }
      else
        some { s with phase := QPhase.sleeping, current := none,
                      finished := s.finished + 1 }
    | _, _ => none
  | QEvent.wake =>
    match s.phase, s.queue with
    | QPhase.sleeping, h :: t =>
      some { s with phase := QPhase.running, current := some h,
                    queue := t, started := s.started ++ [h] }
    | _, _ => none

def runQ (s : QState) : List QEvent → Option QState
  | [] => some s
  | e :: es =>
    match qStep s e with
    | none => none
    | some s1 => runQ s1 es

/-! ### tgSend timing (index.js)

JS source:
  let lastSend = 0;
  async function tgSend(fn, retry = 0) {
    try {
      const delay = Math.max(0, 800 - (Date.now() - lastSend));
      await new Promise(r => setTimeout(r, delay));
      lastSend = Date.now();
      await fn();
    } catch (e) { ... }
  }
With `lastSend ≤ now` (lastSend was taken from an earlier reading of the
clock) truncated Nat subtraction `800 - (now - lastSend)` computes exactly
`Math.max(0, 800 - (now - lastSend))`. -/

def tgDelay (lastSend now : Nat) : Nat :=
  800 - (now - lastSend)

structure SendTiming where
  startT : Nat
  endT : Nat
  lastSendAfter : Nat
  deriving DecidableEq, Repr

/-- One `tgSend` call entered at wall-clock time `callT` with the module
variable `lastSend` holding `lastSend`, whose `fn()` takes `dur` ms: the
sleep of `tgDelay` ms ends at `startT`, where `lastSend` is overwritten
with the current time and `fn` is started; `fn` settles at `endT`. -/
def tgSendTiming (lastSend callT dur : Nat) : SendTiming :=
  let st := callT + tgDelay lastSend callT
  { startT := st, endT := st + dur, lastSendAfter := st }

/-! ### WhatsAppManager lifecycle (part_000)

State fields of the manager that the lifecycle handlers read or write:
  this.isReady, this.reconnectAttempts, this.reconnectDelay,
  this.lastHealthCheck.
The collaborator lifecycle / message events are the transition labels; the
`telegram.sendMessage` notifications and the `sleep(delay); destroy();
initialize()` continuation of `handleReconnect` are recorded as outputs. -/

structure WAState where
  isReady : Bool
  reconnectAttempts : Nat
  reconnectDelay : Nat
  lastHealthCheck : Nat
  deriving DecidableEq, Repr

def waInit : WAState :=
  { isReady := false, reconnectAttempts := 0,
    reconnectDelay := RECONNECT_DELAY, lastHealthCheck := 0 }

inductive WAOut where
  /-- the "WhatsApp Authenticated" notification -/
  | announceAuth
  /-- the "Authentication Failed" notification -/
  | announceAuthFail
  /-- the "WhatsApp Connected and Ready" notification -/
  | announceReady
  /-- the "WhatsApp Disconnected" notification -/
  | announceDisconnect
  /-- the "Reconnecting in ...s (attempt k/10)" notification -/
  | announceReconnecting (attempt : Nat) (delayMs : Nat)
  /-- the "Critical Error: max reconnection attempts reached" notification -/
  | announceCritical
  /-- `sleep(delayMs)` followed by `destroy()` and `initialize()` -/
  | schedule (delayMs : Nat)
  deriving DecidableEq, Repr

/-- JS source (WhatsAppManager.handleReconnect):
  if (this.reconnectAttempts >= 10) {
    await this.telegram.sendMessage("Critical Error ... Manual restart required.");
    return;
  }
  this.reconnectAttempts++;
  const delay = Math.min(this.reconnectDelay * this.reconnectAttempts,
                         CONFIG.MAX_RECONNECT_DELAY);
  await this.telegram.sendMessage("Reconnecting in ...");
  await sleep(delay); ... destroy ...; await this.initialize(); -/
def handleReconnect (s : WAState) : WAState × List WAOut :=
  if 10 ≤ s.reconnectAttempts then
    (s, [WAOut.announceCritical])
  else
    let attempts := s.reconnectAttempts + 1
    let delay := min (s.reconnectDelay * attempts) MAX_RECONNECT_DELAY
    ({ s with reconnectAttempts := attempts },
     [WAOut.announceReconnecting attempts delay, WAOut.schedule delay])

inductive WAEvent where
  | qr
  | authenticated
  | authFailure
  | ready (now : Nat)
  | disconnected
  | message (now : Nat)
  | messageCreate (fromMe : Bool) (now : Nat)
  deriving DecidableEq, Repr

/-- The event handlers installed by WhatsAppManager.setupEventHandlers,
one transition per collaborator event (message forwarding is modelled only
through its `lastHealthCheck` update, which is all the lifecycle claims
read). -/
def waStep (s : WAState) (e : WAEvent) : WAState × List WAOut :=
  match e with
  | WAEvent.qr => (s, [])
  | WAEvent.authenticated =>
    ({ s with reconnectAttempts := 0, reconnectDelay := RECONNECT_DELAY },
     [WAOut.announceAuth])
  | WAEvent.authFailure =>
    let p := handleReconnect s
    (p.1, WAOut.announceAuthFail :: p.2)
  | WAEvent.ready now =>
    ({ s with isReady := true, lastHealthCheck := now }, [WAOut.announceReady])
  | WAEvent.disconnected =>
    let p := handleReconnect { s with isReady := false }
    (p.1, WAOut.announceDisconnect :: p.2)
  | WAEvent.message now =>
    ({ s with lastHealthCheck := now }, [])
  | WAEvent.messageCreate fromMe now =>
    (if fromMe then { s with lastHealthCheck := now } else s, [])

def runWA (s : WAState) : List WAEvent → WAState × List WAOut
  | [] => (s, [])
  | e :: es =>
    let p := waStep s e
    let q := runWA p.1 es
    (q.1, p.2 ++ q.2)

/-! ### Health monitor (WhatsAppManager.startHealthMonitoring)

JS source (the setInterval callback, one tick):
  const timeSinceLastActivity = Date.now() - this.lastHealthCheck;
  if (this.isReady && timeSinceLastActivity > CONFIG.HEALTH_CHECK_INTERVAL * 3) {
    console.warn(...);
    this.telegram.sendMessage("Health Warning ...");
  }
The returned Bool records whether the single warning notification of this
tick was sent.  (With `lastHealthCheck ≤ now`, truncated Nat subtraction
agrees with JS subtraction; when `now < lastHealthCheck` both sides make
the guard false.) -/

def healthTick (s : WAState) (now : Nat) : WAState × Bool :=
  if s.isReady = true ∧ HEALTH_CHECK_INTERVAL * 3 < now - s.lastHealthCheck then
    (s, true)
  else (s, false)

/-- A run of consecutive interval ticks at the given clock readings,
counting the warning notifications emitted. -/
def runHealthTicks (s : WAState) : List Nat → WAState × Nat
  | [] => (s, 0)
  | now :: rest =>
    let p := healthTick s now
    let q := runHealthTicks p.1 rest
    (q.1, (if p.2 then 1 else 0) + q.2)

/-! ### sendDocument fallback (TelegramManager.sendDocument)

JS source (the closure handed to messageQueue.add):
  try { return await this.bot.sendDocument(CONFIG.CHAT_ID, document, options); }
  catch (error) {
    console.error(...);
    if (options.caption) {
      await this.sendMessage(options.caption + "\n\n[Media attachment failed to send]");
    }
    return null;
  }
`this.sendMessage` is `return this.messageQueue.add(async () => ...)`: the
catch pushes the fallback text item onto the SAME MessageQueue that is
currently executing this closure (the `process` loop is suspended at
`await fn()` on it, with `processing` still true) and then awaits the new
item's promise.  In the transition system above, this catch segment is
exactly an `enqueue` step taken from a `running` state whose `current`
item is the document closure itself; the closure can settle (the `finish`
step) only after the fallback item's promise has resolved, which requires
the fallback item to have been started first.  The C9 theorem below shows
this circular wait never resolves. -/

/-! ### Telegram reply handler (setupReplyHandler + WhatsAppManager.sendReply)

JS source:
  if (String(tgMsg.chat.id) !== String(CONFIG.CHAT_ID)) return;
  if (!tgMsg.reply_to_message) return;
  const original = tgMsg.reply_to_message.text || tgMsg.reply_to_message.caption || '';
  const match = original.match(/PHONE_MARKER\s*(\+?\d+)/);
  if (!match) { console.log('No phone number found in reply'); return; }
  const number = match[1].replace(/\D/g, '');
  const replyText = tgMsg.text || '[No text]';
  await telegram.sendMessage('Sending reply...');
  await whatsapp.sendReply(number, replyText);      -- throws if !isReady
  await telegram.sendMessage('Reply Sent ...');
and in sendReply:
  if (!this.isReady) throw new Error('WhatsApp not ready');
  const chatId = number.includes('@') ? number : number + '@c.us';
  await this.client.sendMessage(chatId, text);
The regex is scanned over the character list: find an occurrence of the
marker char (the mobile phone emoji) followed by optional whitespace, an
optional '+', and at least one digit; the capture group is the optional
'+' plus the digit run. -/

def markerChar : Char := '📱'

/-- JS \s on the characters appearing here (space, tab, CR, LF). -/
def jsSpace (c : Char) : Bool :=
  c == ' ' || c == '\t' || c == '\n' || c == '\r'

/-- Attempt to match `\s*(\+?\d+)` at this position, returning the capture
group.  Backtracking inside `\s*` cannot help: a shorter match of `\s*`
leaves a whitespace character where `\+?\d` must match. -/
def parseNumberAt (cs : List Char) : Option (List Char) :=
  match cs.dropWhile jsSpace with
  | '+' :: rest =>
    match rest with
    | c :: _ => if c.isDigit then some ('+' :: rest.takeWhile Char.isDigit) else none
    | [] => none
  | c :: rest => if c.isDigit then some (c :: rest.takeWhile Char.isDigit) else none
  | [] => none

/-- The regex search: the overall pattern must start with the marker char,
so the engine advances to each occurrence of it and tries the tail there. -/
def findMarker : List Char → Option (List Char)
  | [] => none
  | c :: rest =>
    if c = markerChar then
      match parseNumberAt rest with
      | some cap => some cap
      | none => findMarker rest
    else findMarker rest

/-- `match[1].replace(/\D/g, '')` applied to the capture group. -/
def extractNumber (original : List Char) : Option (List Char) :=
  (findMarker original).map (fun cap => cap.filter Char.isDigit)

/-- JS `a || b` on string-or-undefined values (undefined and '' are falsy). -/
def jsOrTxt (a : Option (List Char)) (b : List Char) : List Char :=
  match a with
  | some s => if s = [] then b else s
  | none => b

/-- `number.includes('@') ? number : number + '@c.us'` -/
def toWaChatId (number : List Char) : List Char :=
  if number.contains '@' then number else number ++ "@c.us".toList

structure ReplyRef where
  rtext : Option (List Char)
  rcaption : Option (List Char)
  deriving DecidableEq, Repr

structure TgMsg where
  chatId : String
  replyTo : Option ReplyRef
  text : Option (List Char)
  deriving DecidableEq, Repr

inductive ReplyOutcome where
  /-- message not in the configured chat: handler returns silently -/
  | ignoredOtherChat
  /-- not a reply: handler returns silently -/
  | ignoredNoReply
  /-- no marker + number in the replied-to text: console.log only, silent -/
  | ignoredNoNumber
  /-- sendReply threw 'WhatsApp not ready'; caught, 'Reply Failed' sent -/
  | failedNotReady
  /-- client.sendMessage threw; caught, 'Reply Failed' sent -/
  | failedSend
  /-- reply delivered, 'Reply Sent' confirmation sent -/
  | replied
  deriving DecidableEq, Repr

structure ReplyResult where
  outcome : ReplyOutcome
  /-- the `client.sendMessage(chatId, text)` invocations made -/
  waSends : List (List Char × List Char)
  /-- whether the catch handler sent the 'Reply Failed' error notification -/
  errorSurfaced : Bool
  deriving DecidableEq, Repr

def handleReply (cfgChatId : String) (isReady : Bool) (sendFails : Bool)
    (m : TgMsg) : ReplyResult :=
  if m.chatId ≠ cfgChatId then
    { outcome := ReplyOutcome.ignoredOtherChat, waSends := [], errorSurfaced := false }
  else
    match m.replyTo with
    | none =>
      { outcome := ReplyOutcome.ignoredNoReply, waSends := [], errorSurfaced := false }
    | some r =>
      let original := jsOrTxt r.rtext (jsOrTxt r.rcaption [])
      match extractNumber original with
      | none =>
        { outcome := ReplyOutcome.ignoredNoNumber, waSends := [], errorSurfaced := false }
      | some number =>
        let replyText := jsOrTxt m.text "[No text]".toList
        if isReady = false then
          { outcome := ReplyOutcome.failedNotReady, waSends := [], errorSurfaced := true }
        else
          let sends := [(toWaChatId number, replyText)]
          if sendFails then
            { outcome := ReplyOutcome.failedSend, waSends := sends, errorSurfaced := true }
          else
            { outcome := ReplyOutcome.replied, waSends := sends, errorSurfaced := false }

/-! ## Helper lemmas -/

theorem processDrain_length (l : List (Except String α)) :
    (processDrain l).length = l.length := by
  induction l with
  | nil => rfl
  | cons x rest ih => cases x <;> simp [processDrain, ih]

theorem mem_of_mem_purge {k : String} {e now : Nat} {l : List (String × Nat)}
    (h : (k, e) ∈ purge now l) : (k, e) ∈ l :=
  List.mem_of_mem_filter h

theorem any_key_eq_false (key : String) (l : List (String × Nat))
    (h : ∀ e, (key, e) ∉ l) : (l.any fun ke => ke.1 == key) = false := by
  by_contra hc
  rw [Bool.not_eq_false, List.any_eq_true] at hc
  obtain ⟨ke, hmem, hkey⟩ := hc
  rw [beq_iff_eq] at hkey
  refine h ke.2 ?_
  have hke : ke = (key, ke.2) := by
    cases ke
    simp_all
  rw [hke] at hmem
  exact hmem

/-! ## Claims -/

/-- C10: for every string `text`, `truncateText text` returns a string of
length at most `MAX_MESSAGE_LENGTH` (4096): the input unchanged when its
length is at most the ceiling, and otherwise the first
`MAX_MESSAGE_LENGTH - 3` characters of the input followed by `...`. -/
theorem C10_truncateText_spec (text : List Char) :
    (truncateText text MAX_MESSAGE_LENGTH).length ≤ MAX_MESSAGE_LENGTH ∧
    truncateText text MAX_MESSAGE_LENGTH =
      (if text.length ≤ MAX_MESSAGE_LENGTH then text
       else text.take (MAX_MESSAGE_LENGTH - 3) ++ ['.', '.', '.']) := by
  refine ⟨?_, rfl⟩
  unfold truncateText MAX_MESSAGE_LENGTH
  split
  · omega
  · simp only [List.length_append, List.length_take, List.length_cons,
      List.length_nil]
    omega

/-- C4: for every key: a call with the key untracked returns false and
records the key with expiry `now + ttl`; a later call before the expiry
returns true and leaves the state (in particular the recorded expiry)
unchanged apart from purging fired timers; once the TTL has elapsed the
key has been removed and the next call returns false again. -/
theorem C4_dedupe_lifecycle (key : String) (ttl t t1 t2 : Nat)
    (s : List (String × Nat))
    (hfresh : ∀ e, (key, e) ∉ s)
    (hwin : t1 < t + ttl) (hexp : t + ttl ≤ t2) :
    (dedupe key ttl t s).1 = false ∧
    (key, t + ttl) ∈ (dedupe key ttl t s).2 ∧
    (dedupe key ttl t1 (dedupe key ttl t s).2).1 = true ∧
    (dedupe key ttl t1 (dedupe key ttl t s).2).2 =
      purge t1 (dedupe key ttl t s).2 ∧
    (key, t + ttl) ∈ (dedupe key ttl t1 (dedupe key ttl t s).2).2 ∧
    (dedupe key ttl t2 (dedupe key ttl t1 (dedupe key ttl t s).2).2).1 = false := by
  have hs1 : ((purge t s).any fun ke => ke.1 == key) = false :=
    any_key_eq_false key _ (fun e he => hfresh e (mem_of_mem_purge he))
  have h0 : dedupe key ttl t s = (false, (key, t + ttl) :: purge t s) := by
    simp [dedupe, hs1]
  have hp1 : purge t1 ((key, t + ttl) :: purge t s) =
      (key, t + ttl) :: purge t1 (purge t s) := by
    simp [purge, List.filter_cons, hwin]
  have h1 : dedupe key ttl t1 ((key, t + ttl) :: purge t s) =
      (true, (key, t + ttl) :: purge t1 (purge t s)) := by
    simp [dedupe, hp1]
  have hnot : ¬ (t2 < t + ttl) := by omega
  have hp2 : purge t2 ((key, t + ttl) :: purge t1 (purge t s)) =
      purge t2 (purge t1 (purge t s)) := by
    simp [purge, List.filter_cons, hnot]
  have hs2 : ((purge t2 (purge t1 (purge t s))).any fun ke => ke.1 == key) = false :=
    any_key_eq_false key _ (fun e he =>
      hfresh e (mem_of_mem_purge (mem_of_mem_purge (mem_of_mem_purge he))))
  refine ⟨?_, ?_, ?_, ?_, ?_, ?_⟩
  · rw [h0]
  · rw [h0]; exact List.mem_cons_self _ _
  · rw [h0, h1]
  · rw [h0, h1, hp1]
  · rw [h0, h1]; exact List.mem_cons_self _ _
  · rw [h0, h1]
    simp [dedupe, hp2, hs2]

/-- Witness for C4 at key "k", ttl 10000, calls at times 0, 5000 and
10000 from the empty state. -/
theorem C4_dedupe_lifecycle_witness :
    (dedupe "k" 10000 0 []).1 = false ∧
    ("k", 0 + 10000) ∈ (dedupe "k" 10000 0 []).2 ∧
    (dedupe "k" 10000 5000 (dedupe "k" 10000 0 []).2).1 = true ∧
    (dedupe "k" 10000 5000 (dedupe "k" 10000 0 []).2).2 =
      purge 5000 (dedupe "k" 10000 0 []).2 ∧
    ("k", 0 + 10000) ∈ (dedupe "k" 10000 5000 (dedupe "k" 10000 0 []).2).2 ∧
    (dedupe "k" 10000 10000
      (dedupe "k" 10000 5000 (dedupe "k" 10000 0 []).2).2).1 = false :=
  C4_dedupe_lifecycle "k" 10000 0 5000 10000 []
    (fun e h => by simp at h) (by omega) (by omega)

/-- C1: for an action that fails on every attempt, the Delivery Queue
(TelegramManager.sendMessage through its MessageQueue) invokes the action
exactly `MAX_RETRIES` (3) times, then stops retrying and settles the
queued closure with `null` (resolved, never rejected, so nothing is thrown
at a non-awaiting caller), and every subsequently queued item is still
drained and settled. -/
theorem C1_retry_exhaust (act : Nat → Except String Unit)
    (hfail : ∀ n, ∃ e, act n = Except.error e) :
    sendAttempts act 0 = (MAX_RETRIES, none) ∧
    ∀ rest : List (Except String (Option Unit)),
      processDrain (Except.ok (sendAttempts act 0).2 :: rest) =
        QOutcome.resolved none :: processDrain rest ∧
      (processDrain rest).length = rest.length := by
  obtain ⟨e0, h0⟩ := hfail 0
  obtain ⟨e1, h1⟩ := hfail 1
  obtain ⟨e2, h2⟩ := hfail 2
  have hA : sendAttempts act 0 = (MAX_RETRIES, none) := by
    simp [sendAttempts, sendAttemptsGo, MAX_RETRIES, h0, h1, h2]
  refine ⟨hA, fun rest => ⟨?_, processDrain_length rest⟩⟩
  rw [hA]
  simp [processDrain]

/-- Witness for C1 with the always-failing action and a queue holding two
further items behind it. -/
theorem C1_retry_exhaust_witness :
    sendAttempts (fun _ => (Except.error "boom" : Except String Unit)) 0 =
      (MAX_RETRIES, none) ∧
    processDrain (Except.ok
        (sendAttempts (fun _ => (Except.error "boom" : Except String Unit)) 0).2 ::
        [Except.ok (some ()), Except.error "x"]) =
      QOutcome.resolved none ::
        processDrain [Except.ok (some ()), Except.error "x"] ∧
    (processDrain
        ([Except.ok (some ()), Except.error "x"] :
          List (Except String (Option Unit)))).length = 2 := by
  have h := C1_retry_exhaust (fun _ => Except.error "boom")
    (fun _ => ⟨"boom", rfl⟩)
  exact ⟨h.1, (h.2 [Except.ok (some ()), Except.error "x"]).1,
    (h.2 [Except.ok (some ()), Except.error "x"]).2⟩

/-- C5 counterexample: the delay of the index.js `tgSend` wrapper is
computed from the wall-clock time at which the previous send STARTED
(`lastSend` is set before `await fn()`), so the gap between the END of one
execution and the start of the next can be far below the ~800-1000 ms
interval: with the previous send starting at 1000 and taking 600 ms, a
send entered at its end waits only 200 ms. -/
theorem C5_end_to_start_counterexample :
    (tgSendTiming 0 1000 600).endT = 1600 ∧
    (tgSendTiming (tgSendTiming 0 1000 600).lastSendAfter
      (tgSendTiming 0 1000 600).endT 0).startT = 1800 ∧
    (tgSendTiming (tgSendTiming 0 1000 600).lastSendAfter
      (tgSendTiming 0 1000 600).endT 0).startT -
      (tgSendTiming 0 1000 600).endT = 200 ∧
    (tgSendTiming (tgSendTiming 0 1000 600).lastSendAfter
      (tgSendTiming 0 1000 600).endT 0).startT -
      (tgSendTiming 0 1000 600).endT < 800 := by
  decide

/-- C5 amended: `tgSend` enforces a minimum of 800 ms between the STARTS
of consecutive sends, computed from the wall-clock time of the last send
start rather than a fixed sleep per item; a send entered when the last
send start is at least 800 ms old starts immediately with no added
delay. -/
theorem C5_start_to_start_min_interval (lastSend callT dur : Nat)
    (h : lastSend ≤ callT) :
    lastSend + 800 ≤ (tgSendTiming lastSend callT dur).startT ∧
    (lastSend + 800 ≤ callT → (tgSendTiming lastSend callT dur).startT = callT) := by
  simp only [tgSendTiming, tgDelay]
  refine ⟨by omega, fun hidle => by omega⟩

/-- Witness for C5 amended: last send started at 0, next entered at
1000 ms (an idle period longer than 800 ms): it starts at once. -/
theorem C5_start_to_start_min_interval_witness :
    0 + 800 ≤ (tgSendTiming 0 1000 600).startT ∧
    (0 + 800 ≤ 1000 → (tgSendTiming 0 1000 600).startT = 1000) :=
  C5_start_to_start_min_interval 0 1000 600 (by omega)

/-- Invariant of the MessageQueue transition system: execution starts,
followed by the still-queued items, list exactly the submissions in order
(FIFO); an item is in flight exactly while the loop is between `await
fn()` and its settlement; and the number of starts exceeds the number of
completed executions by exactly the one in-flight item, if any
(single-flight: a new start requires the previous execution finished). -/
def QInv (s : QState) : Prop :=
  s.started ++ s.queue = s.submitted ∧
  (s.current.isSome ↔ s.phase = QPhase.running) ∧
  s.started.length = s.finished + (if s.current.isSome then 1 else 0)

theorem qStep_inv {s s2 : QState} {e : QEvent}
    (hI : QInv s) (h : qStep s e = some s2) : QInv s2 := by
  obtain ⟨h1, h2, h3⟩ := hI
  cases e with
  | enqueue i =>
    simp only [qStep] at h
    cases hp : s.phase with
    | idle =>
      have hcur : s.current = none := by
        cases hc : s.current with
        | none => rfl
        | some v => rw [hc, hp] at h2; simp at h2
      rw [hp] at h
      cases hq : s.queue with
      | nil =>
        rw [hq] at h
        simp at h
        subst h
        rw [hq] at h1
        rw [hcur] at h3
        simp at h1 h3
        refine ⟨by simp [h1], by simp, by simp [h3]⟩
      | cons a as =>
        rw [hq] at h
        simp at h
        subst h
        rw [hq] at h1
        rw [hcur] at h3
        simp at h3
        refine ⟨?_, by simp, by simp [h3]⟩
        rw [← h1]
        simp
    | running =>
      rw [hp] at h
      simp at h
      subst h
      refine ⟨?_, by simp [h2, hp], by simpa using h3⟩
      simp only [← List.append_assoc]
      simp [h1]
    | sleeping =>
      rw [hp] at h
      simp at h
      subst h
      have hcur : s.current = none := by
        cases hc : s.current with
        | none => rfl
        | some v => rw [hc, hp] at h2; simp at h2
      rw [hcur] at h3
      simp at h3
      refine ⟨?_, by simp [hcur, hp], by simp [hcur, h3]⟩
      simp only [← List.append_assoc]
      simp [h1]
  | finish =>
    simp only [qStep] at h
    cases hp : s.phase with
    | idle => rw [hp] at h; simp at h
    | sleeping => rw [hp] at h; simp at h
    | running =>
      cases hc : s.current with
      | none => rw [hp, hc] at h; simp at h
      | some v =>
        rw [hp, hc] at h
        rw [hc] at h3
        simp at h3
        by_cases hq : s.queue.isEmpty
        · rw [if_pos hq] at h
          simp at h
          subst h
          refine ⟨by simpa using h1, by simp, by simp [h3]⟩
        · rw [if_neg hq] at h
          simp at h
          subst h
          refine ⟨by simpa using h1, by simp, by simp [h3]⟩
  | wake =>
    simp only [qStep] at h
    cases hp : s.phase with
    | idle => rw [hp] at h; simp at h
    | running => rw [hp] at h; simp at h
    | sleeping =>
      have hcur : s.current = none := by
        cases hc : s.current with
        | none => rfl
        | some v => rw [hc, hp] at h2; simp at h2
      rw [hp] at h
      cases hq : s.queue with
      | nil => rw [hq] at h; simp at h
      | cons a as =>
        rw [hq] at h
        simp at h
        subst h
        rw [hq] at h1
        rw [hcur] at h3
        simp at h3
        refine ⟨by simpa using h1, by simp, by simp [h3]⟩

theorem runQ_inv {s s2 : QState} {es : List QEvent}
    (hI : QInv s) (h : runQ s es = some s2) : QInv s2 := by
  induction es generalizing s with
  | nil =>
    simp [runQ] at h
    subst h
    exact hI
  | cons e es ih =>
    simp only [runQ] at h
    cases hstep : qStep s e with
    | none => rw [hstep] at h; simp at h
    | some s1 =>
      rw [hstep] at h
      exact ih (qStep_inv hI hstep) h

/-- C2: for every sequence of interleaved queue events (enqueues from any
number of concurrent callbacks, settlements, sleep timer firings), every
reachable state of the MessageQueue satisfies: the items whose execution
has started, in start order, followed by the still-pending items, equal
the submitted items in submission order (execution start order = FIFO
submission order), and the number of started executions never exceeds the
number of finished ones by more than the single in-flight item (no two
executions overlap). -/
theorem C2_fifo_single_flight (es : List QEvent) (s : QState)
    (h : runQ qInit es = some s) :
    s.started ++ s.queue = s.submitted ∧
    s.started.length = s.finished + (if s.current.isSome then 1 else 0) ∧
    (s.current.isSome ↔ s.phase = QPhase.running) := by
  have hinit : QInv qInit := by
    refine ⟨rfl, by simp [qInit], by simp [qInit]⟩
  obtain ⟨h1, h2, h3⟩ := runQ_inv hinit h
  exact ⟨h1, h3, h2⟩

/-- Witness for C2: two items enqueued while the first is executing, then
run to completion. -/
theorem C2_fifo_single_flight_witness :
    (([1, 2] : List Nat) ++ [] = [1, 2]) ∧
    ([1, 2] : List Nat).length =
      2 + (if (none : Option Nat).isSome then 1 else 0) ∧
    ((none : Option Nat).isSome ↔ QPhase.idle = QPhase.running) :=
  C2_fifo_single_flight
    [QEvent.enqueue 1, QEvent.enqueue 2, QEvent.finish, QEvent.wake, QEvent.finish]
    { queue := [], phase := QPhase.idle, current := none,
      started := [1, 2], finished := 2, submitted := [1, 2] }
    rfl

/-- C3 counterexample: after exactly 10 consecutive disconnect events with
no intervening Ready, the code has NOT stopped: the 10th disconnect still
passes the `reconnectAttempts >= 10` guard (the counter was 9 when it was
checked), schedules a 10th reconnect attempt with delay
min(5000 * 10, 300000) = 50000 ms, and no high-severity notification has
been emitted anywhere in the run. -/
theorem C3_tenth_disconnect_counterexample :
    (runWA waInit (List.replicate 10 WAEvent.disconnected)).1.reconnectAttempts = 10 ∧
    WAOut.schedule 50000 ∈ (runWA waInit (List.replicate 10 WAEvent.disconnected)).2 ∧
    WAOut.announceCritical ∉ (runWA waInit (List.replicate 10 WAEvent.disconnected)).2 ∧
    (waStep (runWA waInit (List.replicate 9 WAEvent.disconnected)).1
        WAEvent.disconnected).2 =
      [WAOut.announceDisconnect, WAOut.announceReconnecting 10 50000,
       WAOut.schedule 50000] := by
  decide

/-- C3 amended: after 10 consecutive disconnects the attempt counter has
reached the ceiling of 10 (a 10th reconnect having been scheduled); it is
the NEXT (11th and every later) disconnect that finds the ceiling reached:
it emits the high-severity "Critical Error" notification, schedules no
reconnect attempt, and leaves the counter unchanged (the terminal,
fatally-failed situation requiring manual restart). -/
theorem C3_fatal_after_ceiling (s : WAState)
    (h : 10 ≤ s.reconnectAttempts) :
    (runWA waInit (List.replicate 10 WAEvent.disconnected)).1.reconnectAttempts = 10 ∧
    (waStep s WAEvent.disconnected).2 =
      [WAOut.announceDisconnect, WAOut.announceCritical] ∧
    (∀ d, WAOut.schedule d ∉ (waStep s WAEvent.disconnected).2) ∧
    (waStep s WAEvent.disconnected).1.reconnectAttempts = s.reconnectAttempts ∧
    (waStep s WAEvent.disconnected).1.isReady = false := by
  refine ⟨by decide, ?_, ?_, ?_, ?_⟩ <;>
    simp [waStep, handleReconnect, Nat.not_lt.mpr h, h]

/-- Witness for C3 amended at the state reached by 10 consecutive
disconnects (counter = 10). -/
theorem C3_fatal_after_ceiling_witness :
    (runWA waInit (List.replicate 10 WAEvent.disconnected)).1.reconnectAttempts = 10 ∧
    (waStep { isReady := false, reconnectAttempts := 10,
              reconnectDelay := 5000, lastHealthCheck := 0 }
        WAEvent.disconnected).2 =
      [WAOut.announceDisconnect, WAOut.announceCritical] ∧
    (∀ d, WAOut.schedule d ∉
      (waStep { isReady := false, reconnectAttempts := 10,
                reconnectDelay := 5000, lastHealthCheck := 0 }
          WAEvent.disconnected).2) ∧
    (waStep { isReady := false, reconnectAttempts := 10,
              reconnectDelay := 5000, lastHealthCheck := 0 }
        WAEvent.disconnected).1.reconnectAttempts = 10 ∧
    (waStep { isReady := false, reconnectAttempts := 10,
              reconnectDelay := 5000, lastHealthCheck := 0 }
        WAEvent.disconnected).1.isReady = false :=
  C3_fatal_after_ceiling
    { isReady := false, reconnectAttempts := 10,
      reconnectDelay := 5000, lastHealthCheck := 0 }
    (by decide)

/-- C6 counterexample: the manager sets Ready on any collaborator "ready"
signal without having observed an "authenticated" signal first (trace
consisting of a bare ready event), and reaching Ready does not reset the
attempt counter (trace authenticated, disconnected, ready reaches Ready
with the counter at 1, the reset having happened at the authenticated
signal and been consumed by the disconnect). -/
theorem C6_ready_counterexample :
    (¬ ∀ tr : List WAEvent,
        (runWA waInit tr).1.isReady = true → WAEvent.authenticated ∈ tr) ∧
    (¬ ∀ tr : List WAEvent,
        (runWA waInit tr).1.isReady = true →
          (runWA waInit tr).1.reconnectAttempts = 0) := by
  constructor
  · intro hall
    have h := hall [WAEvent.ready 0] (by decide)
    simp at h
  · intro hall
    have h := hall [WAEvent.authenticated, WAEvent.disconnected, WAEvent.ready 5]
      (by decide)
    rw [show (runWA waInit
        [WAEvent.authenticated, WAEvent.disconnected, WAEvent.ready 5]).1.reconnectAttempts
        = 1 from by decide] at h
    exact absurd h (by decide)

/-- C6 amended: the manager marks Ready on any collaborator "ready"
signal, without itself checking for a preceding "authenticated"; the
attempt counter and backoff delay are reset to base values by the
"authenticated" handler, so whenever a "ready" signal directly follows an
"authenticated" signal, Ready is reached with the counter at 0 and the
delay at its base value. -/
theorem C6_auth_resets_then_ready (s : WAState) (now : Nat) :
    (waStep s WAEvent.authenticated).1.reconnectAttempts = 0 ∧
    (waStep s WAEvent.authenticated).1.reconnectDelay = RECONNECT_DELAY ∧
    (runWA s [WAEvent.authenticated, WAEvent.ready now]).1.isReady = true ∧
    (runWA s [WAEvent.authenticated, WAEvent.ready now]).1.reconnectAttempts = 0 ∧
    (runWA s [WAEvent.authenticated, WAEvent.ready now]).1.reconnectDelay
      = RECONNECT_DELAY := by
  refine ⟨rfl, rfl, ?_, ?_, ?_⟩ <;> simp [runWA, waStep]

/-- C7: a health-monitor tick emits the warning notification exactly when
the state is Ready and the time since the last recorded activity exceeds
3 times the health-check interval; a tick never modifies the manager
state (in particular it never forces a reconnect), and a run of ticks
emits at most one warning per tick. -/
theorem C7_health_monitor (s : WAState) (now : Nat) (ts : List Nat) :
    ((healthTick s now).2 = true ↔
      (s.isReady = true ∧ HEALTH_CHECK_INTERVAL * 3 < now - s.lastHealthCheck)) ∧
    (healthTick s now).1 = s ∧
    (runHealthTicks s ts).2 ≤ ts.length := by
  refine ⟨?_, ?_, ?_⟩
  · unfold healthTick
    split
    · simp_all
    · simp_all
  · unfold healthTick
    split <;> rfl
  · induction ts generalizing s with
    | nil => simp [runHealthTicks]
    | cons t rest ih =>
      simp only [runHealthTicks, List.length_cons]
      have hs : (healthTick s t).1 = s := by unfold healthTick; split <;> rfl
      rw [hs]
      have := ih s
      split <;> omega

/-- C8: for a reply event in the configured chat: with no address marker
(the mobile-phone-emoji token followed by a number) in the replied-to
text, the handler returns silently with no WhatsApp send and no error
notification; with an address but the session not ready, `sendReply`
throws "WhatsApp not ready", the catch handler surfaces the "Reply
Failed" error to the operator and no WhatsApp send happens; otherwise
`client.sendMessage` is invoked exactly once, addressed with the
extracted number. -/
theorem C8_reply_routing :
    (∀ (cfg : String) (ready fails : Bool) (m : TgMsg) (r : ReplyRef),
       m.chatId = cfg → m.replyTo = some r →
       extractNumber (jsOrTxt r.rtext (jsOrTxt r.rcaption [])) = none →
       handleReply cfg ready fails m =
         { outcome := ReplyOutcome.ignoredNoNumber, waSends := [],
           errorSurfaced := false }) ∧
    (∀ (cfg : String) (fails : Bool) (m : TgMsg) (r : ReplyRef)
       (number : List Char),
       m.chatId = cfg → m.replyTo = some r →
       extractNumber (jsOrTxt r.rtext (jsOrTxt r.rcaption [])) = some number →
       handleReply cfg false fails m =
         { outcome := ReplyOutcome.failedNotReady, waSends := [],
           errorSurfaced := true }) ∧
    (∀ (cfg : String) (fails : Bool) (m : TgMsg) (r : ReplyRef)
       (number : List Char),
       m.chatId = cfg → m.replyTo = some r →
       extractNumber (jsOrTxt r.rtext (jsOrTxt r.rcaption [])) = some number →
       (handleReply cfg true fails m).waSends =
         [(toWaChatId number, jsOrTxt m.text "[No text]".toList)] ∧
       (handleReply cfg true fails m).waSends.length = 1) := by
  refine ⟨?_, ?_, ?_⟩
  · intro cfg ready fails m r hchat hreply hnone
    simp [handleReply, hchat, hreply, hnone]
  · intro cfg fails m r number hchat hreply hsome
    simp [handleReply, hchat, hreply, hsome]
  · intro cfg fails m r number hchat hreply hsome
    cases fails <;> simp [handleReply, hchat, hreply, hsome]

/-- Witness for C8 on three concrete replies in chat "7795828902": one
whose replied-to text has no marker, one with marker and number
"15551234567" while not ready, and the same while ready. -/
theorem C8_reply_routing_witness :
    handleReply "7795828902" true false
      { chatId := "7795828902",
        replyTo := some { rtext := some "no marker here".toList, rcaption := none },
        text := some "hi".toList } =
      { outcome := ReplyOutcome.ignoredNoNumber, waSends := [],
        errorSurfaced := false } ∧
    handleReply "7795828902" false false
      { chatId := "7795828902",
        replyTo := some { rtext := some "x 📱 15551234567".toList, rcaption := none },
        text := some "hi".toList } =
      { outcome := ReplyOutcome.failedNotReady, waSends := [],
        errorSurfaced := true } ∧
    (handleReply "7795828902" true false
      { chatId := "7795828902",
        replyTo := some { rtext := some "x 📱 15551234567".toList, rcaption := none },
        text := some "hi".toList }).waSends =
      [(toWaChatId "15551234567".toList, jsOrTxt (some "hi".toList) "[No text]".toList)] ∧
    (handleReply "7795828902" true false
      { chatId := "7795828902",
        replyTo := some { rtext := some "x 📱 15551234567".toList, rcaption := none },
        text := some "hi".toList }).waSends.length = 1 := by
  have h := C8_reply_routing
  refine ⟨?_, ?_, ?_, ?_⟩
  · exact h.1 "7795828902" true false _
      { rtext := some "no marker here".toList, rcaption := none }
      rfl rfl (by decide)
  · exact h.2.1 "7795828902" false _
      { rtext := some "x 📱 15551234567".toList, rcaption := none }
      "15551234567".toList rfl rfl (by decide)
  · exact (h.2.2 "7795828902" false _
      { rtext := some "x 📱 15551234567".toList, rcaption := none }
      "15551234567".toList rfl rfl (by decide)).1
  · exact (h.2.2 "7795828902" false _
      { rtext := some "x 📱 15551234567".toList, rcaption := none }
      "15551234567".toList rfl rfl (by decide)).2

/-- In a finish-free continuation from a `running` state the MessageQueue
makes no progress: no item starts or finishes, the phase stays `running`
with the same in-flight item, and pending items stay pending. -/
theorem runQ_no_finish (es : List QEvent) : ∀ (s s2 : QState),
    s.phase = QPhase.running →
    QEvent.finish ∉ es →
    runQ s es = some s2 →
    s2.started = s.started ∧ s2.finished = s.finished ∧
    s2.phase = QPhase.running ∧ s2.current = s.current ∧
    ∀ x, x ∈ s.queue → x ∈ s2.queue := by
  induction es with
  | nil =>
    intro s s2 hrun hnf h
    simp [runQ] at h
    subst h
    exact ⟨rfl, rfl, hrun, rfl, fun x hx => hx⟩
  | cons e es ih =>
    intro s s2 hrun hnf h
    have hne : e ≠ QEvent.finish := fun hh =>
      hnf (by rw [hh]; exact List.mem_cons_self _ _)
    have hnf2 : QEvent.finish ∉ es := fun hh => hnf (List.mem_cons_of_mem _ hh)
    simp only [runQ] at h
    cases e with
    | finish => exact absurd rfl hne
    | wake =>
      simp only [qStep] at h
      rw [hrun] at h
      simp at h
    | enqueue i =>
      simp only [qStep] at h
      rw [hrun] at h
      simp only [] at h
      have hres := ih _ s2 rfl hnf2 h
      refine ⟨hres.1, hres.2.1, hres.2.2.1, hres.2.2.2.1, fun x hx => ?_⟩
      exact hres.2.2.2.2 x (List.mem_append_left _ hx)

/-- C9: the claim states the intent (the code's own comment reads
"Fallback to text if document fails") but the code deadlocks instead of
delivering the caption.  The catch of `sendDocument` awaits
`this.sendMessage(caption + notice)`, which enqueues the fallback text
item onto the same single-flight MessageQueue whose `process` loop is
suspended awaiting this very closure: formally, the catch segment is an
`enqueue` step from a `running` state whose in-flight item is the
document closure (first conjunct); in every continuation in which the
document closure has not settled (no `finish` step) the fallback item
never starts and the queue stays wedged on the document closure (second
conjunct); and any continuation in which the fallback item does start
contains a prior settlement of the document closure (third conjunct) -
while the closure, per the `await`, settles only after the fallback item
has run: the circular wait never resolves and the caption text is never
delivered. -/
theorem C9_document_fallback_deadlock (doc fb : Nat) (s0 : QState)
    (hrun : s0.phase = QPhase.running) (hcur : s0.current = some doc)
    (hfb : fb ∉ s0.started) :
    qStep s0 (QEvent.enqueue fb) =
      some { s0 with queue := s0.queue ++ [fb],
                     submitted := s0.submitted ++ [fb] } ∧
    (∀ es s, QEvent.finish ∉ es →
      runQ { s0 with queue := s0.queue ++ [fb],
                     submitted := s0.submitted ++ [fb] } es = some s →
      s.started = s0.started ∧ s.finished = s0.finished ∧
      s.phase = QPhase.running ∧ s.current = some doc ∧ fb ∈ s.queue) ∧
    (∀ es s,
      runQ { s0 with queue := s0.queue ++ [fb],
                     submitted := s0.submitted ++ [fb] } es = some s →
      fb ∈ s.started → QEvent.finish ∈ es) := by
  refine ⟨?_, ?_, ?_⟩
  · simp [qStep, hrun]
  · intro es s hnf h
    have hres := runQ_no_finish es
      { s0 with queue := s0.queue ++ [fb], submitted := s0.submitted ++ [fb] }
      s hrun hnf h
    refine ⟨hres.1, hres.2.1, hres.2.2.1, by rw [hres.2.2.2.1]; exact hcur, ?_⟩
    exact hres.2.2.2.2 fb (List.mem_append_right _ (List.mem_singleton_self _))
  · intro es s h hstart
    by_cases hf : QEvent.finish ∈ es
    · exact hf
    · exfalso
      have hres := runQ_no_finish es
        { s0 with queue := s0.queue ++ [fb], submitted := s0.submitted ++ [fb] }
        s hrun hf h
      rw [hres.1] at hstart
      exact hfb hstart

/-- Witness for C9 at the concrete wedged configuration: document closure
0 in flight, fallback item 1 enqueued by its catch; a further enqueue
makes no progress, and the only way item 1 ever starts is after a
settlement of closure 0. -/
theorem C9_document_fallback_deadlock_witness :
    qStep { queue := [], phase := QPhase.running, current := some 0,
            started := [0], finished := 0, submitted := [0] }
        (QEvent.enqueue 1) =
      some { queue := [1], phase := QPhase.running, current := some 0,
             started := [0], finished := 0, submitted := [0, 1] } ∧
    (([0] : List Nat) = [0] ∧ (0 : Nat) = 0 ∧
      QPhase.running = QPhase.running ∧ (some 0 : Option Nat) = some 0 ∧
      (1 : Nat) ∈ [1, 2]) ∧
    QEvent.finish ∈ [QEvent.finish, QEvent.wake] := by
  have h := C9_document_fallback_deadlock 0 1
    { queue := [], phase := QPhase.running, current := some 0,
      started := [0], finished := 0, submitted := [0] }
    rfl rfl (by decide)
  refine ⟨h.1, ?_, ?_⟩
  · exact h.2.1 [QEvent.enqueue 2]
      { queue := [1, 2], phase := QPhase.running, current := some 0,
        started := [0], finished := 0, submitted := [0, 1, 2] }
      (by decide) rfl
  · exact h.2.2 [QEvent.finish, QEvent.wake]
      { queue := [], phase := QPhase.running, current := some 1,
        started := [0, 1], finished := 1, submitted := [0, 1] }
      rfl (by decide)
